import Mathlib

/-!
Shallow embedding of the bitstamp-rs client core (src/lib.rs, src/types.rs,
src/error.rs): the canonical-message builder and request signer, the REST
error classification, the channel codec, the event payload decoder and the
event-stream receive loop, together with theorems checking the
specification's claims about them.

JSON payloads are modelled as an abstract syntax tree `Json`; the textual
parsing done by the serde_json library is abstracted away, and numbers are
modelled as rationals (JSON decimal literals are exact rationals).
-/

/-- JSON value tree. Numbers are rationals; serde's i64 fields accept only
integral numbers in the i64 range, f64 fields accept any number. -/
inductive Json where
  | null : Json
  | bool (b : Bool) : Json
  | num (q : Rat) : Json
  | str (s : String) : Json
  | arr (xs : List Json) : Json
  | obj (fields : List (String × Json)) : Json

/-- First field of the given name in a JSON object's field list (serde
reads each declared field from the map; well-formed inputs have no
duplicate keys). -/
def getField (fs : List (String × Json)) (k : String) : Option Json :=
  (fs.find? (fun p => p.fst == k)).map Prod.snd

/-- A JSON value read as a Rust String field: must be a JSON string. -/
def asStr : Json → Option String
  | .str s => some s
  | _ => none

/-- A JSON value read as a Rust i64 field: an integral number in range. -/
def asI64 : Json → Option Int
  | .num q =>
      if q.den = 1 ∧ -(2 ^ 63) ≤ q.num ∧ q.num < 2 ^ 63 then some q.num else none
  | _ => none

/-- A JSON value read as a Rust f64 field: any number. -/
def asF64 : Json → Option Rat
  | .num q => some q
  | _ => none

/-- A JSON value read as a Vec of String. -/
def asStrList : Json → Option (List String)
  | .arr xs => xs.mapM asStr
  | _ => none

/-- A JSON value read as a Vec of Vec of String (order-book levels). -/
def asStrListList : Json → Option (List (List String))
  | .arr xs => xs.mapM asStrList
  | _ => none

/-- Escape a character for a JSON string literal, as serde_json does for
the characters this client ever serializes. -/
def escapeChar (c : Char) : List Char :=
  if c = '"' then ['\\', '"']
  else if c = '\\' then ['\\', '\\']
  else [c]

mutual

/-- serde_json string serialization of the values this client sends
(strings and objects; the client's outbound bodies and control frames
contain only strings and objects, so the number branch is exercised only
on integral values). -/
def jsonToString : Json → String
  | .null => "null"
  | .bool true => "true"
  | .bool false => "false"
  | .num q => if q.den = 1 then toString q.num else toString q
  | .str s => "\"" ++ ⟨s.data.flatMap escapeChar⟩ ++ "\""
  | .arr xs => "[" ++ String.intercalate "," (jsonListToString xs) ++ "]"
  | .obj fs => "\x7b" ++ String.intercalate "," (jsonFieldsToString fs) ++ "\x7d"

/-- Serializations of the elements of a JSON array, in order. -/
def jsonListToString : List Json → List String
  | [] => []
  | j :: js => jsonToString j :: jsonListToString js

/-- Serializations `"key":value` of the fields of a JSON object, in
declaration order (serde_json serializes struct fields in order). -/
def jsonFieldsToString : List (String × Json) → List String
  | [] => []
  | (k, v) :: fs => ("\"" ++ k ++ "\":" ++ jsonToString v) :: jsonFieldsToString fs

end

/-- ASCII lowercasing of one character, as Rust's `to_lowercase` acts on
the ASCII strings this client handles. -/
def lowerChar (c : Char) : Char :=
  if 65 ≤ c.toNat ∧ c.toNat ≤ 90 then Char.ofNat (c.toNat + 32) else c

/-- ASCII lowercasing of a string (Rust `str::to_lowercase` restricted to
ASCII, which covers every channel and pair name in this client). -/
def toLowerStr (s : String) : String := ⟨s.data.map lowerChar⟩

/-- Split a character list at every occurrence of the separator, keeping
empty segments, exactly like Rust's `str::split(char)`. -/
def splitChar (sep : Char) : List Char → List (List Char)
  | [] => [[]]
  | c :: cs =>
    let rest := splitChar sep cs
    if c = sep then [] :: rest
    else
      match rest with
      | [] => [[c]]
      | r :: rs => (c :: r) :: rs

/-- Rust `s.split(sep).collect::<Vec<_>>()` on strings. -/
def splitStr (sep : Char) (s : String) : List String :=
  (splitChar sep s.data).map (fun l => ⟨l⟩)

/-- Trading pairs, src/types.rs `CurrencyPairs`. -/
inductive CurrencyPairs where
  | Btcusd | Btceur | Eurusd
  | Xrpusd | Xrpeur | Xrpbtc
  | Ltcusd | Ltceur | Ltcbtc
  | Ethusd | Etheur | Ethbtc
  | Bchusd | Bcheur | Bchbtc
deriving DecidableEq

/-- Rust's `{:?}` (Debug) rendering of a `CurrencyPairs` value: the
variant name as written. -/
def pairDebug : CurrencyPairs → String
  | .Btcusd => "Btcusd"
  | .Btceur => "Btceur"
  | .Eurusd => "Eurusd"
  | .Xrpusd => "Xrpusd"
  | .Xrpeur => "Xrpeur"
  | .Xrpbtc => "Xrpbtc"
  | .Ltcusd => "Ltcusd"
  | .Ltceur => "Ltceur"
  | .Ltcbtc => "Ltcbtc"
  | .Ethusd => "Ethusd"
  | .Etheur => "Etheur"
  | .Ethbtc => "Ethbtc"
  | .Bchusd => "Bchusd"
  | .Bcheur => "Bcheur"
  | .Bchbtc => "Bchbtc"

/-- `CurrencyPairs::from_str`, src/types.rs lines 295-318: lowercase the
input and match it against the fifteen pair names, `Err(())` otherwise
(modelled as `none`). -/
def currencyPairFromStr (s : String) : Option CurrencyPairs :=
  match toLowerStr s with
  | "btcusd" => some .Btcusd
  | "btceur" => some .Btceur
  | "eurusd" => some .Eurusd
  | "xrpusd" => some .Xrpusd
  | "xrpeur" => some .Xrpeur
  | "xrpbtc" => some .Xrpbtc
  | "ltcusd" => some .Ltcusd
  | "ltceur" => some .Ltceur
  | "ltcbtc" => some .Ltcbtc
  | "ethusd" => some .Ethusd
  | "etheur" => some .Etheur
  | "ethbtc" => some .Ethbtc
  | "bchusd" => some .Bchusd
  | "bcheur" => some .Bcheur
  | "bchbtc" => some .Bchbtc
  | _ => none

/-- Event channels, src/types.rs `EventChannel`. -/
inductive EventChannel where
  | LiveTrades (pair : CurrencyPairs)
  | LiveOrders (pair : CurrencyPairs)
  | OrderBook (pair : CurrencyPairs)
  | DetailOrderBook (pair : CurrencyPairs)
  | DiffOrderBook (pair : CurrencyPairs)
deriving DecidableEq

/-- `impl Serialize for EventChannel`, src/types.rs lines 211-226: format
the kind tag with the pair's Debug name and lowercase the whole string. -/
def encodeChannel : EventChannel → String
  | .LiveTrades p => toLowerStr ("live_trades_" ++ pairDebug p)
  | .LiveOrders p => toLowerStr ("live_orders_" ++ pairDebug p)
  | .OrderBook p => toLowerStr ("order_book_" ++ pairDebug p)
  | .DetailOrderBook p => toLowerStr ("detail_order_book_" ++ pairDebug p)
  | .DiffOrderBook p => toLowerStr ("diff_order_book_" ++ pairDebug p)

/-- `impl Deserialize for EventChannel`, src/types.rs lines 228-273: split
on underscore, read the last token as the trading pair, rejoin the rest
with underscores and match it against the five kind tags. -/
def decodeChannel (s : String) : Except String EventChannel :=
  let parts := splitStr '_' s
  match parts.getLast? with
  | none => .error "Failed to parse CurrencyPairs"
  | some p =>
    match currencyPairFromStr p with
    | none => .error ("Unknown currency pair: " ++ p)
    | some pair =>
      match String.intercalate "_" parts.dropLast with
      | "live_trades" => .ok (.LiveTrades pair)
      | "live_orders" => .ok (.LiveOrders pair)
      | "order_book" => .ok (.OrderBook pair)
      | "detail_order_book" => .ok (.DetailOrderBook pair)
      | "diff_order_book" => .ok (.DiffOrderBook pair)
      | _ => .error "Unknown channel"

/-- Event kinds, src/types.rs `EventEvent`, with their serde snake_case
renames. -/
inductive EventEvent where
  | BtsSubscribe
  | BtsUnsubscribe
  | Trade
  | OrderCreated
  | OrderChanged
  | OrderDeleted
  | Data
deriving DecidableEq

/-- Deserialize an `EventEvent` from its wire string (the serde renames
`bts:subscribe` or `bts:unsubscribe` or the snake_case variant name). -/
def asEventEvent : Json → Option EventEvent
  | .str s =>
    match s with
    | "bts:subscribe" => some .BtsSubscribe
    | "bts:unsubscribe" => some .BtsUnsubscribe
    | "trade" => some .Trade
    | "order_created" => some .OrderCreated
    | "order_changed" => some .OrderChanged
    | "order_deleted" => some .OrderDeleted
    | "data" => some .Data
    | _ => none
  | _ => none

/-- Serialize an `EventEvent` to its wire string. -/
def eventEventToStr : EventEvent → String
  | .BtsSubscribe => "bts:subscribe"
  | .BtsUnsubscribe => "bts:unsubscribe"
  | .Trade => "trade"
  | .OrderCreated => "order_created"
  | .OrderChanged => "order_changed"
  | .OrderDeleted => "order_deleted"
  | .Data => "data"

/-- Event payloads, src/types.rs `EventData` (an untagged serde union of
trade fields, order fields, order-book snapshot, or empty). -/
inductive EventData where
  | Trade (buy_order_id : Int) (amount_str : String) (timestamp : String)
      (microtimestamp : String) (id : Int) (amount : Rat)
      (sell_order_id : Int) (price_str : String) (type_field : Int)
      (price : Rat)
  | Orders (id : Int) (id_str : String) (order_type : Int)
      (datetime : String) (microtimestamp : String) (amount : Rat)
      (amount_str : String) (price : Rat) (price_str : String)
  | OrderBook (timestamp : String) (microtimestamp : String)
      (bids : List (List String)) (asks : List (List String))
  | Empty
deriving DecidableEq

/-- Attempt the `Trade` shape of the untagged union: all ten trade fields
must be present with their declared types; unknown fields are ignored, as
serde does by default. -/
def parseTrade (j : Json) : Option EventData :=
  match j with
  | .obj fs => do
    let b ← (getField fs "buy_order_id").bind asI64
    let amountStr ← (getField fs "amount_str").bind asStr
    let ts ← (getField fs "timestamp").bind asStr
    let micro ← (getField fs "microtimestamp").bind asStr
    let i ← (getField fs "id").bind asI64
    let amount ← (getField fs "amount").bind asF64
    let s ← (getField fs "sell_order_id").bind asI64
    let priceStr ← (getField fs "price_str").bind asStr
    let ty ← (getField fs "type").bind asI64
    let price ← (getField fs "price").bind asF64
    some (.Trade b amountStr ts micro i amount s priceStr ty price)
  | _ => none

/-- Attempt the `Orders` shape of the untagged union. -/
def parseOrders (j : Json) : Option EventData :=
  match j with
  | .obj fs => do
    let i ← (getField fs "id").bind asI64
    let idStr ← (getField fs "id_str").bind asStr
    let orderType ← (getField fs "order_type").bind asI64
    let dt ← (getField fs "datetime").bind asStr
    let micro ← (getField fs "microtimestamp").bind asStr
    let amount ← (getField fs "amount").bind asF64
    let amountStr ← (getField fs "amount_str").bind asStr
    let price ← (getField fs "price").bind asF64
    let priceStr ← (getField fs "price_str").bind asStr
    some (.Orders i idStr orderType dt micro amount amountStr price priceStr)
  | _ => none

/-- Attempt the `OrderBook` shape of the untagged union. -/
def parseOrderBook (j : Json) : Option EventData :=
  match j with
  | .obj fs => do
    let ts ← (getField fs "timestamp").bind asStr
    let micro ← (getField fs "microtimestamp").bind asStr
    let bids ← (getField fs "bids").bind asStrListList
    let asks ← (getField fs "asks").bind asStrListList
    some (.OrderBook ts micro bids asks)
  | _ => none

/-- The untagged `EventData` decoder, src/types.rs lines 166-200: serde
tries the variants in declaration order — Trade, then Orders, then
OrderBook, then Empty — and commits to the first shape that matches
fully; `Empty` accepts any JSON object. -/
def parseEventData (j : Json) : Option EventData :=
  match parseTrade j with
  | some d => some d
  | none =>
    match parseOrders j with
    | some d => some d
    | none =>
      match parseOrderBook j with
      | some d => some d
      | none =>
        match j with
        | .obj _ => some .Empty
        | _ => none

/-- Inbound events, src/types.rs `Event`. -/
structure Event where
  event : EventEvent
  channel : EventChannel
  data : EventData
deriving DecidableEq

/-- Deserialize an `Event` from a JSON value: the three fields `event`,
`channel` and `data` are all required; the channel string goes through
the custom `EventChannel` visitor. -/
def parseEvent (j : Json) : Option Event :=
  match j with
  | .obj fs => do
    let ev ← (getField fs "event").bind asEventEvent
    let chs ← (getField fs "channel").bind asStr
    let ch ← (decodeChannel chs).toOption
    let dj ← getField fs "data"
    let d ← parseEventData dj
    some ⟨ev, ch, d⟩
  | _ => none

/-- WebSocket messages as `handle_message` distinguishes them. Text and
binary frames carry the result of the textual JSON parsing stage (`none`
when the bytes are not valid UTF-8 JSON), which abstracts the serde_json
text parser; ping, pong and close are control frames. -/
inductive Msg where
  | text (j : Option Json)
  | binary (j : Option Json)
  | ping
  | pong
  | close
deriving Inhabited

/-- Whether a frame is a ping, pong or close control frame. -/
def Msg.isControl : Msg → Bool
  | .ping => true
  | .pong => true
  | .close => true
  | _ => false

/-- `BitstampEventStream::handle_message`, src/lib.rs lines 79-118: text
and binary frames are parsed as JSON events (parse failure is an error
carrying the serde message, abstracted here to its classification);
ping, pong and close frames yield `Ok(None)` and are absorbed. -/
def handleMessage : Msg → Except String (Option Event)
  | .text none => .error "unable to deserialize"
  | .binary none => .error "unable to deserialize"
  | .text (some j) =>
    match parseEvent j with
    | some ev => .ok (some ev)
    | none => .error "unable to deserialize"
  | .binary (some j) =>
    match parseEvent j with
    | some ev => .ok (some ev)
    | none => .error "unable to deserialize"
  | .ping => .ok none
  | .pong => .ok none
  | .close => .ok none

/-- One poll of `ws_stream.next()`: the socket either yields a message
(`Some(Ok(m))`), a transport error (`Some(Err(e))`, carrying its
rendered string), or reports end of stream (`None`). -/
inductive Frame where
  | msg (m : Msg)
  | errFrame (e : String)
  | streamEnd
deriving Inhabited

/-- One iteration of the receive loop: the milliseconds this poll takes
to resolve, and what the socket yields when it does. -/
structure Poll where
  delay : Nat
  frame : Frame

/-- `Duration::from_secs(20)`, src/lib.rs line 148: the staleness
timeout, in seconds. -/
def streamTimeoutSecs : Nat := 20

/-- The staleness timeout in milliseconds. -/
def streamTimeoutMs : Nat := streamTimeoutSecs * 1000

/-- Failure classification of `BitstampEventStream::next` (the source
returns `Err(String)`; the strings are classified here, keeping the
underlying text where one exists). -/
inductive NextErr where
  | timeout
  | transport (e : String)
  | decodeFail (e : String)
deriving DecidableEq

/-- `BitstampEventStream::next`, src/lib.rs lines 49-77, run against a
finite trace of socket polls. Each iteration re-arms
`tokio::time::timeout(self.timeout, next)`, so a poll resolving later
than the timeout fails with the no-activity error; a transport error is
returned as an error; `None` from the socket continues the loop;
messages go through `handle_message`, whose `Ok(None)` (control frames)
continues the loop and whose `Ok(Some(event))` is returned. `none` means
the trace ended with the loop still waiting for activity. -/
def nextEvent : List Poll → Option (Except NextErr Event)
  | [] => none
  | p :: rest =>
    if p.delay > streamTimeoutMs then some (.error .timeout)
    else
      match p.frame with
      | .streamEnd => nextEvent rest
      | .errFrame e => some (.error (.transport e))
      | .msg m =>
        match handleMessage m with
        | .error e => some (.error (.decodeFail e))
        | .ok none => nextEvent rest
        | .ok (some ev) => some (.ok ev)

/-- Socket state observable through this client: the frames written so
far. -/
structure WsState where
  sent : List String
deriving DecidableEq

/-- `ws_stream.send(msg)`, as used by subscribe and unsubscribe: the
frame is written and the transport layer reports an outcome. -/
def sendMsg (ws : WsState) (frame : String) (outcome : Except String Unit) :
    WsState × Except String Unit :=
  ({ sent := ws.sent ++ [frame] }, outcome)

/-- The control frame `OutEvent` serialized for a subscribe, src/lib.rs
line 121: serde_json of `OutEvent` with event `bts:subscribe` and the
channel's wire string. -/
def subscribeFrame (c : EventChannel) : String :=
  jsonToString (.obj [("event", .str (eventEventToStr .BtsSubscribe)),
    ("data", .obj [("channel", .str (encodeChannel c))])])

/-- The control frame serialized for an unsubscribe, src/lib.rs line
125. -/
def unsubscribeFrame (c : EventChannel) : String :=
  jsonToString (.obj [("event", .str (eventEventToStr .BtsUnsubscribe)),
    ("data", .obj [("channel", .str (encodeChannel c))])])

/-- `BitstampEventStream::subscribe`, src/lib.rs lines 120-122: send the
serialized control frame; the send's result is discarded (the statement
ends with `;` and no `?`), and the method returns unit. -/
def subscribe (ws : WsState) (c : EventChannel)
    (outcome : Except String Unit) : WsState × Unit :=
  let r := sendMsg ws (subscribeFrame c) outcome
  (r.fst, ())

/-- `BitstampEventStream::unsubscribe`, src/lib.rs lines 124-126. -/
def unsubscribe (ws : WsState) (c : EventChannel)
    (outcome : Except String Unit) : WsState × Unit :=
  let r := sendMsg ws (unsubscribeFrame c) outcome
  (r.fst, ())

/-- 32-bit right rotation on a word below 2^32. -/
def rotr (n x : Nat) : Nat :=
  (x >>> n) ||| ((x <<< (32 - n)) % 4294967296)

/-- The 64 SHA-256 round constants (FIPS 180-4, as implemented by the
sha2 crate), written in decimal. -/
def kConst : List Nat :=
  [1116352408, 1899447441, 3049323471, 3921009573, 961987163,
   1508970993, 2453635748, 2870763221, 3624381080, 310598401,
   607225278, 1426881987, 1925078388, 2162078206, 2614888103,
   3248222580, 3835390401, 4022224774, 264347078, 604807628,
   770255983, 1249150122, 1555081692, 1996064986, 2554220882,
   2821834349, 2952996808, 3210313671, 3336571891, 3584528711,
   113926993, 338241895, 666307205, 773529912, 1294757372,
   1396182291, 1695183700, 1986661051, 2177026350, 2456956037,
   2730485921, 2820302411, 3259730800, 3345764771, 3516065817,
   3600352804, 4094571909, 275423344, 430227734, 506948616,
   659060556, 883997877, 958139571, 1322822218, 1537002063,
   1747873779, 1955562222, 2024104815, 2227730452, 2361852424,
   2428436474, 2756734187, 3204031479, 3329325298]

/-- SHA-256 hash state: eight 32-bit words. -/
structure Hash8 where
  a : Nat
  b : Nat
  c : Nat
  d : Nat
  e : Nat
  f : Nat
  g : Nat
  h : Nat

/-- The SHA-256 initial hash value, in decimal. -/
def initHash : Hash8 :=
  ⟨1779033703, 3144134277, 1013904242, 2773480762,
   1359893119, 2600822924, 528734635, 1541459225⟩

/-- Pack bytes into big-endian 32-bit words, four at a time. -/
def toWords : List Nat → List Nat
  | b0 :: b1 :: b2 :: b3 :: rest =>
      (b0 * 16777216 + b1 * 65536 + b2 * 256 + b3) :: toWords rest
  | _ => []

/-- Extend sixteen message-schedule words to sixty-four. -/
def msgSchedule (ws : Array Nat) : Array Nat :=
  (List.range 48).foldl
    (fun acc i =>
      let idx := i + 16
      let w15 := acc.getD (idx - 15) 0
      let w2 := acc.getD (idx - 2) 0
      let s0 := rotr 7 w15 ^^^ rotr 18 w15 ^^^ (w15 >>> 3)
      let s1 := rotr 17 w2 ^^^ rotr 19 w2 ^^^ (w2 >>> 10)
      acc.push ((acc.getD (idx - 16) 0 + s0 + acc.getD (idx - 7) 0 + s1) % 4294967296))
    ws

/-- One SHA-256 compression round, consuming a pair of round constant
and schedule word. -/
def roundStep (st : Hash8) (kw : Nat × Nat) : Hash8 :=
  let s1 := rotr 6 st.e ^^^ rotr 11 st.e ^^^ rotr 25 st.e
  let ch := (st.e &&& st.f) ^^^ ((4294967295 ^^^ st.e) &&& st.g)
  let t1 := (st.h + s1 + ch + kw.fst + kw.snd) % 4294967296
  let s0 := rotr 2 st.a ^^^ rotr 13 st.a ^^^ rotr 22 st.a
  let mj := (st.a &&& st.b) ^^^ (st.a &&& st.c) ^^^ (st.b &&& st.c)
  let t2 := (s0 + mj) % 4294967296
  ⟨(t1 + t2) % 4294967296, st.a, st.b, st.c,
   (st.d + t1) % 4294967296, st.e, st.f, st.g⟩

/-- Compress one 64-byte chunk into the running hash. -/
def compressChunk (hst : Hash8) (chunk : List Nat) : Hash8 :=
  let ws := msgSchedule (toWords chunk).toArray
  let v := (List.zip kConst ws.toList).foldl roundStep hst
  ⟨(hst.a + v.a) % 4294967296, (hst.b + v.b) % 4294967296,
   (hst.c + v.c) % 4294967296, (hst.d + v.d) % 4294967296,
   (hst.e + v.e) % 4294967296, (hst.f + v.f) % 4294967296,
   (hst.g + v.g) % 4294967296, (hst.h + v.h) % 4294967296⟩

/-- Big-endian eight-byte encoding of the message bit length. -/
def lenBytes (n : Nat) : List Nat :=
  [(n >>> 56) % 256, (n >>> 48) % 256, (n >>> 40) % 256, (n >>> 32) % 256,
   (n >>> 24) % 256, (n >>> 16) % 256, (n >>> 8) % 256, n % 256]

/-- Cut a padded message into 64-byte chunks; the count argument is the
number of chunks, which for a padded message is its length divided by
64. -/
def chunksOf64 : Nat → List Nat → List (List Nat)
  | 0, _ => []
  | n + 1, l => l.take 64 :: chunksOf64 n (l.drop 64)

/-- Big-endian four-byte serialization of a 32-bit word. -/
def wordBytes (w : Nat) : List Nat :=
  [(w >>> 24) % 256, (w >>> 16) % 256, (w >>> 8) % 256, w % 256]

/-- Serialize the final hash state to its 32-byte digest. -/
def serializeHash (s : Hash8) : List Nat :=
  wordBytes s.a ++ wordBytes s.b ++ wordBytes s.c ++ wordBytes s.d ++
  wordBytes s.e ++ wordBytes s.f ++ wordBytes s.g ++ wordBytes s.h

/-- SHA-256 of a byte list (the sha2 crate's `Sha256`): pad to a
multiple of 64 bytes with 0x80, zeros and the 64-bit big-endian bit
length, then compress chunk by chunk from the initial hash value. -/
def sha256 (msg : List Nat) : List Nat :=
  let l := msg.length
  let zeros := (119 - l % 64) % 64
  let padded := msg ++ 128 :: List.replicate zeros 0 ++ lenBytes (8 * l)
  serializeHash ((chunksOf64 (padded.length / 64) padded).foldl compressChunk initHash)

/-- HMAC key normalization: a key longer than the 64-byte block is
hashed, then the key is zero-padded to the block size. -/
def hmacKey (key : List Nat) : List Nat :=
  let k := if key.length > 64 then sha256 key else key
  k ++ List.replicate (64 - k.length) 0

/-- HMAC-SHA256 (the hmac crate's `Hmac<Sha256>`):
sha256(opad-key ++ sha256(ipad-key ++ message)). -/
def hmacSha256 (key msg : List Nat) : List Nat :=
  let k := hmacKey key
  sha256 ((k.map (fun b => b ^^^ 92)) ++ sha256 ((k.map (fun b => b ^^^ 54)) ++ msg))

/-- The sixteen lowercase hexadecimal digits. -/
def hexDigitChars : List Char := "0123456789abcdef".data

/-- The lowercase hexadecimal digit of a nibble. -/
def hexDigit (n : Nat) : Char := hexDigitChars.getD n 'f'

/-- Two lowercase hex characters per byte, high nibble first (the hex
crate's `encode`). -/
def hexChars : List Nat → List Char
  | [] => []
  | b :: bs => hexDigit (b / 16) :: hexDigit (b % 16) :: hexChars bs

/-- Lowercase hex encoding of a byte list. -/
def hexEncode (bs : List Nat) : String := ⟨hexChars bs⟩

/-- UTF-8 bytes of a string (Rust `str::as_bytes`). -/
def strBytes (s : String) : List Nat := s.toUTF8.toList.map (fun b => b.toNat)

/-- The request signer, src/lib.rs lines 267-270: HMAC-SHA256 keyed by
the raw secret bytes over the canonical message bytes, hex-encoded in
lowercase. -/
def sign (secret message : String) : String :=
  hexEncode (hmacSha256 (strBytes secret) (strBytes message))

/-- `REST_HOST_PREFIX`, src/lib.rs line 31. -/
def restHost : String := "www.bitstamp.net/api/v2"

/-- The content-type string computed once in `call_web_api_raw`,
src/lib.rs line 258, and used both inside the signed message and as the
transmitted header. -/
def contentTypeStr : String := "application/x-www-form-urlencoded"

/-- The canonical message built for signing, src/lib.rs line 265:
`format!("\x7b\x7dPOST\x7b\x7d\x7b\x7d\x7b\x7d\x7b\x7dv2\x7b\x7d", auth,
url, content_type, nonce, timestamp, payload)` — the auth header value,
the literal uppercase method, the host-and-path URL, the content type,
the nonce, the timestamp, the version tag `v2` and the serialized
body, concatenated with no separators. -/
def canonicalMessage (auth url contentType nonce timestamp payload : String) :
    String :=
  auth ++ "POST" ++ url ++ contentType ++ nonce ++ timestamp ++ "v2" ++ payload

/-- `types::Offset`, src/types.rs lines 72-75, the body object sent by
`get_balance`. -/
structure Offset where
  offset : String
deriving DecidableEq

/-- serde_json serialization of an `Offset`. -/
def Offset.toJson (o : Offset) : Json := .obj [("offset", .str o.offset)]

/-- The timestamp string built at signing time, src/lib.rs line 260:
`format!("\x7b\x7d\x7b\x7d", now.timestamp(), now.nanosecond() / 1000000)`
— the decimal epoch seconds concatenated directly with the decimal
millisecond component, with no zero-padding (the line carries a `// TODO`
in the source). `secs` is the epoch second, `nanos` the sub-second
nanosecond component. -/
def timestampString (secs : Int) (nanos : Nat) : String :=
  toString secs ++ toString (nanos / 1000000)

/-- The epoch-millisecond value of the same instant, as the spec
describes the timestamp: epoch seconds times 1000 plus the millisecond
component, in decimal. -/
def epochMsString (secs : Int) (nanos : Nat) : String :=
  toString (secs * 1000 + (nanos / 1000000 : Nat))

/-- An HTTP request as `call_web_api_raw` assembles it, src/lib.rs lines
249-284: method, URI, headers in the order they are attached, and the
transmitted body string. -/
structure BuiltRequest where
  method : String
  uri : String
  headers : List (String × String)
  body : String
deriving DecidableEq

/-- The request-building half of `Bitstamp::call_web_api_raw`, src/lib.rs
lines 249-284, with the effectful inputs (the freshly generated UUID
nonce and the captured timestamp string) passed explicitly. For POST the
payload is the serde_json serialization of the body object (empty string
for `None`), the canonical message is signed with HMAC-SHA256 and the six
auth headers are attached; for any other method the body is empty and no
headers are attached. -/
def callApiRequest (key secret httpMethod restMethod : String)
    (body : Option Json) (nonce timestamp : String) : BuiltRequest :=
  let url := restHost ++ "/" ++ restMethod
  if httpMethod == "POST" then
    let auth := "BITSTAMP " ++ key
    let payload :=
      match body with
      | some obj => jsonToString obj
      | none => ""
    let message := canonicalMessage auth url contentTypeStr nonce timestamp payload
    let signature := sign secret message
    { method := httpMethod, uri := "https://" ++ url,
      headers := [("X-Auth", auth), ("X-Auth-Signature", signature),
        ("X-Auth-Nonce", nonce), ("X-Auth-Timestamp", timestamp),
        ("X-Auth-Version", "v2"), ("Content-Type", contentTypeStr)],
      body := payload }
  else
    { method := httpMethod, uri := "https://" ++ url, headers := [], body := "" }

/-- `types::V2Error`, src/types.rs lines 122-127. -/
structure V2Err where
  status : String
  reason : String
  code : String
deriving DecidableEq

/-- `types::V1Error`, src/types.rs lines 129-132. -/
structure V1Err where
  error : String
deriving DecidableEq

/-- `serde_json::from_str::<types::V2Error>` on the response body,
modelled on the body's parse tree (`none` when the body is not JSON at
all): a JSON object whose `status`, `reason` and `code` fields are all
present as strings; extra fields are ignored. -/
def parseV2 (body : Option Json) : Option V2Err :=
  body.bind fun j =>
    match j with
    | .obj fs => do
      let s ← (getField fs "status").bind asStr
      let r ← (getField fs "reason").bind asStr
      let c ← (getField fs "code").bind asStr
      some ⟨s, r, c⟩
    | _ => none

/-- `serde_json::from_str::<types::V1Error>` on the response body. -/
def parseV1 (body : Option Json) : Option V1Err :=
  body.bind fun j =>
    match j with
    | .obj fs => do
      let e ← (getField fs "error").bind asStr
      some ⟨e⟩
    | _ => none

/-- The error kinds of src/error.rs (`Kind`), with HTTP status codes as
naturals. -/
inductive ApiError where
  | text (msg : String)
  | status (code : Nat)
  | errorV1 (code : Nat) (error : String)
  | errorV2 (code : Nat) (reason : String) (errCode : String)
deriving DecidableEq

/-- The non-2xx classification of `call_web_api_raw`, src/lib.rs lines
296-311: try the v2 envelope first and fail with
`v2_error(status, reason, code)`; otherwise try the v1 envelope and fail
with `v1_error(status, error)`; otherwise fail with the bare status. -/
def classifyFailure (httpStatus : Nat) (body : Option Json) : ApiError :=
  match parseV2 body with
  | some e => .errorV2 httpStatus e.reason e.code
  | none =>
    match parseV1 body with
    | some e => .errorV1 httpStatus e.error
    | none => .status httpStatus

/-- A non-2xx response body that carries the v2 envelope fields and the
v1 `error` field at once, to exercise the classification precedence. -/
def v2AndV1Body : Json :=
  .obj [("status", .str "error"), ("reason", .str "r"), ("code", .str "c"),
    ("error", .str "e1")]

/-- A body carrying only the v2 envelope. -/
def v2OnlyBody : Json :=
  .obj [("status", .str "s"), ("reason", .str "r2"), ("code", .str "c2")]

/-- A body carrying only the v1 envelope. -/
def v1OnlyBody : Json := .obj [("error", .str "oops")]

/-- The spec's sample trade frame: channel `live_trades_btcusd` with a
full trade-shaped `data` object. -/
def sampleTradeJson : Json :=
  .obj [("event", .str "trade"), ("channel", .str "live_trades_btcusd"),
    ("data", .obj [("buy_order_id", .num 1), ("amount_str", .str "0.1"),
      ("timestamp", .str "0"), ("microtimestamp", .str "0"),
      ("id", .num 1), ("amount", .num (1 / 10)), ("sell_order_id", .num 2),
      ("price_str", .str "100"), ("type", .num 0), ("price", .num 100)])]

/-- An order-shaped `data` object (all nine `Orders` fields). -/
def sampleOrdersJson : Json :=
  .obj [("id", .num 7), ("id_str", .str "7"), ("order_type", .num 0),
    ("datetime", .str "d"), ("microtimestamp", .str "0"),
    ("amount", .num 2), ("amount_str", .str "2"), ("price", .num 3),
    ("price_str", .str "3")]

/-- An order-book-shaped `data` object. -/
def sampleBookJson : Json :=
  .obj [("timestamp", .str "0"), ("microtimestamp", .str "0"),
    ("bids", .arr [.arr [.str "1", .str "2"]]), ("asks", .arr [])]

/-- C1: for a POST to `balance/` with public key `k`, nonce `n`,
timestamp `t` and the body object with offset `1`, the canonical message
built for signing is exactly the literal concatenation of the auth
header value, the uppercase method, the host-and-path URL, the content
type, the nonce, the timestamp, the version tag and the serialized body;
the builder `canonicalMessage` is a plain function of these inputs. -/
theorem spec_C1_canonical_message :
    canonicalMessage ("BITSTAMP " ++ "k") (restHost ++ "/" ++ "balance/")
        contentTypeStr "n" "t" (jsonToString (Offset.toJson ⟨"1"⟩)) =
      "BITSTAMP kPOSTwww.bitstamp.net/api/v2/balance/application/x-www-form-urlencodedntv2\x7b\"offset\":\"1\"\x7d" := by
  rfl

/-- C2: every channel round-trips losslessly through its lowercase wire
string: decode (encode channel) yields the original channel, for each of
the five kinds paired with each of the fifteen trading pairs. -/
theorem spec_C2_channel_roundtrip :
    ∀ c : EventChannel, decodeChannel (encodeChannel c) = Except.ok c := by
  intro c
  cases c <;> rename_i p <;> cases p <;> rfl

/-- C3: on a non-2xx response the classification tries the v2 envelope
first — a body carrying `status`, `reason` and `code` fails the call with
`ErrorV2` of the HTTP status, the reason and the code, even when the body
also carries the v1 `error` field; a body parsing only as the v1 envelope
fails with `ErrorV1` of the HTTP status and the error text; any other
body fails with the bare HTTP status. -/
theorem spec_C3_error_precedence :
    (∀ (st : Nat) (body : Option Json) (e : V2Err), parseV2 body = some e →
        classifyFailure st body = .errorV2 st e.reason e.code)
  ∧ (∀ (st : Nat) (body : Option Json) (e : V1Err), parseV2 body = none →
        parseV1 body = some e → classifyFailure st body = .errorV1 st e.error)
  ∧ (∀ (st : Nat) (body : Option Json), parseV2 body = none →
        parseV1 body = none → classifyFailure st body = .status st)
  ∧ parseV2 (some v2AndV1Body) = some ⟨"error", "r", "c"⟩
  ∧ parseV1 (some v2AndV1Body) = some ⟨"e1"⟩
  ∧ classifyFailure 403 (some v2AndV1Body) = .errorV2 403 "r" "c" := by
  refine ⟨?_, ?_, ?_, rfl, rfl, rfl⟩
  · intro st body e h
    simp [classifyFailure, h]
  · intro st body e h2 h1
    simp [classifyFailure, h2, h1]
  · intro st body h2 h1
    simp [classifyFailure, h2, h1]

/-- Witness for C3: the three classification branches evaluated at
concrete bodies through the theorem itself. -/
theorem spec_C3_witness :
    classifyFailure 404 (some v2OnlyBody) = .errorV2 404 "r2" "c2"
  ∧ classifyFailure 404 (some v1OnlyBody) = .errorV1 404 "oops"
  ∧ classifyFailure 404 none = .status 404 :=
  ⟨spec_C3_error_precedence.1 404 (some v2OnlyBody) ⟨"s", "r2", "c2"⟩ rfl,
   spec_C3_error_precedence.2.1 404 (some v1OnlyBody) ⟨"oops"⟩ rfl rfl,
   spec_C3_error_precedence.2.2.1 404 none rfl rfl⟩

/-- C4 (code bug): the spec calls for the decimal epoch-millisecond
value, but the code concatenates the decimal seconds and the decimal
millisecond component without zero-padding (src/lib.rs line 260, marked
`// TODO`): at epoch second 1 with nanosecond component 5000000 (5 ms)
the code produces `15` while the epoch-millisecond string is `1005`. -/
theorem spec_C4_timestamp_not_epoch_ms :
    timestampString 1 5000000 = "15"
  ∧ epochMsString 1 5000000 = "1005"
  ∧ timestampString 1 5000000 ≠ epochMsString 1 5000000 := by
  refine ⟨rfl, rfl, ?_⟩
  decide

/-- Counterexample for C5: an explicit close frame from the server is
not surfaced by `next` — `handle_message` maps it to `Ok(None)` and the
loop continues (so a trace holding only a close frame yields no result),
as does the socket reporting end of stream; the stream only fails later,
and then with the timeout error, not a closure. -/
theorem spec_C5_counterexample :
    nextEvent [⟨1, .msg .close⟩] = none
  ∧ nextEvent [⟨1, .streamEnd⟩] = none
  ∧ nextEvent [⟨1, .msg .close⟩, ⟨streamTimeoutMs + 1, .msg .ping⟩] =
      some (.error .timeout) := by
  exact ⟨rfl, rfl, rfl⟩

/-- C5 (amended): a transport-level error reported by the socket within
the timeout window is surfaced to the caller by the next call to `next`;
an explicit close frame and the socket's end-of-stream, by contrast, are
silently absorbed and the loop keeps waiting, so the stream fails only
through the staleness timeout. -/
theorem spec_C5_transport_error_surfaced :
    (∀ (d : Nat) (e : String) (rest : List Poll), d ≤ streamTimeoutMs →
        nextEvent (⟨d, .errFrame e⟩ :: rest) = some (.error (.transport e)))
  ∧ (∀ (d : Nat) (rest : List Poll), d ≤ streamTimeoutMs →
        nextEvent (⟨d, .msg .close⟩ :: rest) = nextEvent rest)
  ∧ (∀ (d : Nat) (rest : List Poll), d ≤ streamTimeoutMs →
        nextEvent (⟨d, .streamEnd⟩ :: rest) = nextEvent rest) := by
  refine ⟨?_, ?_, ?_⟩
  · intro d e rest h
    simp only [nextEvent]
    rw [if_neg (by omega)]
  · intro d rest h
    simp only [nextEvent]
    rw [if_neg (by omega)]
    rfl
  · intro d rest h
    simp only [nextEvent]
    rw [if_neg (by omega)]

/-- Witness for C5 (amended): the three absorbed-or-surfaced behaviours
at delay 1. -/
theorem spec_C5_witness :
    nextEvent [⟨1, .errFrame "io"⟩] = some (.error (.transport "io"))
  ∧ nextEvent [⟨1, .msg .close⟩] = nextEvent ([] : List Poll)
  ∧ nextEvent [⟨1, .streamEnd⟩] = nextEvent ([] : List Poll) :=
  ⟨spec_C5_transport_error_surfaced.1 1 "io" [] (by decide),
   spec_C5_transport_error_surfaced.2.1 1 [] (by decide),
   spec_C5_transport_error_surfaced.2.2 1 [] (by decide)⟩

/-- C6: the staleness window is the fixed 20 seconds; each loop
iteration re-arms the timeout, so a trace of ping frames each arriving
within the window never raises the timeout (the loop is still waiting at
the end of the trace), a poll that takes longer than the window raises
the timeout error immediately and exactly once (the call returns), and
an absorbed control frame is never returned to the caller — the loop
just continues past it. -/
theorem spec_C6_timeout_reset :
    streamTimeoutSecs = 20
  ∧ (∀ polls : List Poll,
        (∀ p ∈ polls, p.delay ≤ streamTimeoutMs ∧ p.frame = .msg .ping) →
        nextEvent polls = none)
  ∧ (∀ (d : Nat) (f : Frame) (rest : List Poll), d > streamTimeoutMs →
        nextEvent (⟨d, f⟩ :: rest) = some (.error .timeout))
  ∧ (∀ (d : Nat) (m : Msg) (rest : List Poll), d ≤ streamTimeoutMs →
        m.isControl = true →
        nextEvent (⟨d, .msg m⟩ :: rest) = nextEvent rest) := by
  refine ⟨rfl, ?_, ?_, ?_⟩
  · intro polls h
    induction polls with
    | nil => rfl
    | cons p rest ih =>
      obtain ⟨hd, hf⟩ := h p (List.mem_cons_self p rest)
      obtain ⟨d, f⟩ := p
      simp only at hf
      subst hf
      simp only [nextEvent]
      rw [if_neg (by simp only at hd; omega)]
      exact ih (fun q hq => h q (List.mem_cons_of_mem _ hq))
  · intro d f rest h
    simp only [nextEvent]
    rw [if_pos h]
  · intro d m rest h hc
    cases m with
    | text j => exact (Bool.false_ne_true hc).elim
    | binary j => exact (Bool.false_ne_true hc).elim
    | ping =>
      simp only [nextEvent]
      rw [if_neg (by omega)]
      rfl
    | pong =>
      simp only [nextEvent]
      rw [if_neg (by omega)]
      rfl
    | close =>
      simp only [nextEvent]
      rw [if_neg (by omega)]
      rfl

/-- Witness for C6: a two-ping trace inside the window is still waiting;
a poll that resolves only after the window times out; a pong inside the
window is absorbed. -/
theorem spec_C6_witness :
    nextEvent [⟨1000, .msg .ping⟩, ⟨2, .msg .ping⟩] = none
  ∧ nextEvent [⟨20001, .msg .ping⟩] = some (.error .timeout)
  ∧ nextEvent [⟨5, .msg .pong⟩] = nextEvent ([] : List Poll) :=
  ⟨spec_C6_timeout_reset.2.1 [⟨1000, .msg .ping⟩, ⟨2, .msg .ping⟩]
      (by
        intro p hp
        rcases List.mem_cons.mp hp with h | h
        · subst h; exact ⟨by decide, rfl⟩
        · rcases List.mem_cons.mp h with h2 | h2
          · subst h2; exact ⟨by decide, rfl⟩
          · cases h2),
   spec_C6_timeout_reset.2.2.1 20001 (.msg .ping) [] (by decide),
   spec_C6_timeout_reset.2.2.2 5 .pong [] (by decide) rfl⟩

/-- C7: the payload decoder commits to the first fully matching shape in
the fixed order Trade, Orders, OrderBook, Empty (serde's untagged-union
declaration order): a full trade field set decodes as a trade payload, a
full order field set (when the trade shape fails) as an order payload, a
full order-book field set (when both fail) as a snapshot, and any other
object as the empty payload; the spec's sample trade frame on channel
`live_trades_btcusd` decodes to the event with channel
`LiveTrades Btcusd` and a trade-shaped payload. -/
theorem spec_C7_payload_decoder :
    (∀ (j : Json) (d : EventData), parseTrade j = some d →
        parseEventData j = some d)
  ∧ (∀ (j : Json) (d : EventData), parseTrade j = none →
        parseOrders j = some d → parseEventData j = some d)
  ∧ (∀ (j : Json) (d : EventData), parseTrade j = none →
        parseOrders j = none → parseOrderBook j = some d →
        parseEventData j = some d)
  ∧ (∀ fs : List (String × Json), parseTrade (.obj fs) = none →
        parseOrders (.obj fs) = none → parseOrderBook (.obj fs) = none →
        parseEventData (.obj fs) = some .Empty)
  ∧ parseEvent sampleTradeJson =
      some ⟨.Trade, .LiveTrades .Btcusd,
        .Trade 1 "0.1" "0" "0" 1 (1 / 10) 2 "100" 0 100⟩ := by
  refine ⟨?_, ?_, ?_, ?_, rfl⟩
  · intro j d h
    simp [parseEventData, h]
  · intro j d ht h
    simp [parseEventData, ht, h]
  · intro j d ht ho h
    simp [parseEventData, ht, ho, h]
  · intro fs ht ho hb
    simp [parseEventData, ht, ho, hb]

/-- Witness for C7: each decoder branch evaluated through the theorem at
a concrete object — the sample trade data, the sample order data, the
sample order-book data, and an object with none of the discriminating
fields. -/
theorem spec_C7_witness :
    parseEventData (.obj [("buy_order_id", .num 1),
        ("amount_str", .str "0.1"), ("timestamp", .str "0"),
        ("microtimestamp", .str "0"), ("id", .num 1),
        ("amount", .num (1 / 10)), ("sell_order_id", .num 2),
        ("price_str", .str "100"), ("type", .num 0), ("price", .num 100)]) =
      some (.Trade 1 "0.1" "0" "0" 1 (1 / 10) 2 "100" 0 100)
  ∧ parseEventData sampleOrdersJson =
      some (.Orders 7 "7" 0 "d" "0" 2 "2" 3 "3")
  ∧ parseEventData sampleBookJson =
      some (.OrderBook "0" "0" [["1", "2"]] [])
  ∧ parseEventData (.obj [("foo", .str "bar")]) = some .Empty :=
  ⟨spec_C7_payload_decoder.1 _ _ rfl,
   spec_C7_payload_decoder.2.1 sampleOrdersJson _ rfl rfl,
   spec_C7_payload_decoder.2.2.1 sampleBookJson _ rfl rfl rfl,
   spec_C7_payload_decoder.2.2.2.1 [("foo", .str "bar")] rfl rfl rfl⟩

/-- The per-byte hex expansion always yields twice as many characters as
bytes. -/
theorem hexChars_length (bs : List Nat) : (hexChars bs).length = 2 * bs.length := by
  induction bs with
  | nil => rfl
  | cons b bs ih => simp [hexChars, ih]; ring

/-- A hex digit is always one of the sixteen lowercase hex characters
(out-of-range nibbles fall back to the default, which is itself one). -/
theorem hexDigit_mem (n : Nat) : hexDigitChars.contains (hexDigit n) = true := by
  unfold hexDigit
  rcases Nat.lt_or_ge n 16 with h | h
  · interval_cases n <;> decide
  · rw [List.getD_eq_default]
    · decide
    · simpa [hexDigitChars] using h

/-- Every character of a hex encoding is a lowercase hex digit. -/
theorem hexChars_all (bs : List Nat) :
    (hexChars bs).all (fun c => hexDigitChars.contains c) = true := by
  induction bs with
  | nil => rfl
  | cons b bs ih => simp only [hexChars, List.all_cons, ih, hexDigit_mem,
      Bool.and_true, Bool.and_self]

/-- A SHA-256 digest is always thirty-two bytes. -/
theorem sha256_length (msg : List Nat) : (sha256 msg).length = 32 := by
  simp [sha256, serializeHash, wordBytes]

/-- C8: the request signature — the lowercase hex encoding of the
HMAC-SHA256 of the canonical message bytes keyed by the raw secret
bytes — is a deterministic function of secret and message, and is always
exactly sixty-four characters, each a lowercase hexadecimal digit. -/
theorem spec_C8_signature :
    (∀ s m : String, sign s m = sign s m)
  ∧ (∀ s m : String, (sign s m).length = 64)
  ∧ (∀ s m : String,
      (sign s m).data.all (fun c => hexDigitChars.contains c) = true) := by
  refine ⟨fun s m => rfl, ?_, ?_⟩
  · intro s m
    show (hexChars (hmacSha256 (strBytes s) (strBytes m))).length = 64
    rw [hexChars_length, hmacSha256, sha256_length]
  · intro s m
    exact hexChars_all _

/-- C9: for every POST the transmitted body is the serde_json
serialization of the payload object, while the Content-Type header — and
the content-type string inside the signed canonical message — is the
literal form-urlencoded string; the same payload string feeds both the
canonical message and the transmitted body, and the same content-type
string feeds both the message and the header. -/
theorem spec_C9_body_and_content_type :
    ∀ (key secret rest : String) (j : Json) (nonce ts : String),
      (callApiRequest key secret "POST" rest (some j) nonce ts).body =
        jsonToString j
    ∧ (callApiRequest key secret "POST" rest (some j) nonce ts).headers.lookup
        "Content-Type" = some contentTypeStr
    ∧ (callApiRequest key secret "POST" rest (some j) nonce ts).headers.lookup
        "X-Auth-Signature" =
        some (sign secret (canonicalMessage ("BITSTAMP " ++ key)
          (restHost ++ "/" ++ rest) contentTypeStr nonce ts (jsonToString j)))
    ∧ contentTypeStr = "application/x-www-form-urlencoded" := by
  intro key secret rest j nonce ts
  exact ⟨rfl, rfl, rfl, rfl⟩

/-- C10: subscribe and unsubscribe always return unit: the result of the
socket send is discarded, so the returned value and the resulting state
are independent of whether the transport send succeeded or failed — the
only effect is the control frame written to the socket. -/
theorem spec_C10_send_result_discarded :
    ∀ (ws : WsState) (c : EventChannel) (o o2 : Except String Unit),
      subscribe ws c o = subscribe ws c o2
    ∧ (subscribe ws c o).snd = ()
    ∧ (subscribe ws c o).fst.sent = ws.sent ++ [subscribeFrame c]
    ∧ unsubscribe ws c o = unsubscribe ws c o2
    ∧ (unsubscribe ws c o).snd = ()
    ∧ (unsubscribe ws c o).fst.sent = ws.sent ++ [unsubscribeFrame c] := by
  intro ws c o o2
  exact ⟨rfl, rfl, rfl, rfl, rfl, rfl⟩
